import Mathlib

/-!
Verification of the token-caching/authentication subsystem of the skribble
Python SDK (files `src/skribble/config.py` and `src/skribble/auth.py`).

The Python code is shallowly embedded: pure functions become Lean functions,
the stateful in-memory cache becomes explicit state passing over an
association list, Python exceptions become an explicit `PyError` sum carried
in `Except`, timestamps (Python `time.time()` floats) become exact rationals,
and bytes become lists of naturals.  The HTTP transport is abstracted as the
response value it yields (`Except String HttpResponse`): the login logic of
`auth.py` is a pure function of that response.
-/

namespace Skribble

/-- Values parsed from a JSON document, as produced by Python's
`json.loads` / `requests.Response.json()`.  JSON numbers are modelled as
integers only; no claim under verification involves numeric fields. -/
inductive Json where
  | null
  | bool (b : Bool)
  | num (n : Int)
  | str (s : String)
  | arr (elems : List Json)
  | obj (fields : List (String × Json))

/-- Python truthiness (`bool(v)`) of a JSON-derived value: `None`, `False`,
`0`, `""`, `[]` and `{}` are falsy, everything else truthy. -/
def Json.truthy : Json → Bool
  | .null => false
  | .bool b => b
  | .num n => n != 0
  | .str s => s != ""
  | .arr l => !l.isEmpty
  | .obj l => !l.isEmpty

/-- Truthiness of an optional value (`None` is falsy). -/
def optTruthy : Option Json → Bool
  | none => false
  | some v => v.truthy

/-- Python exceptions that the embedded code can raise.  `attrError a` is an
`AttributeError` for attribute name `a`; `jsonDecodeError` is the
`json.JSONDecodeError` escaping the uncaught `resp.json()` call in the
200-branch of `_login`; `unicodeDecodeError` is a failing
`bytes.decode("utf-8")`.  `authError` / `httpError` embed the SDK exception
classes `SkribbleAuthError` / `SkribbleHTTPError` from
`skribble/exceptions.py`.  That file is not part of the sources under
verification; its carried fields are modelled from the spec ("carries the
status code, a best-effort human-readable message, and the raw body in both
parsed and textual form") and from the constructor call at auth.py lines
131-136. -/
inductive PyError where
  | authError (msg : String)
  | httpError (status : Int) (msg : String) (response_json : Option Json) (response_text : String)
  | attrError (attr : String)
  | jsonDecodeError
  | unicodeDecodeError

/-- Python substring membership `pat in s`, as a Boolean on character lists:
`listPrefixOf pat s` is `pat` being an initial segment of `s`. -/
def listPrefixOf : List Char → List Char → Bool
  | [], _ => true
  | _ :: _, [] => false
  | a :: as, b :: bs => a == b && listPrefixOf as bs

/-- Python substring membership `pat in s` (for non-empty `pat`): `pat` occurs
contiguously in `s`. -/
def listInfixOf (pat : List Char) : List Char → Bool
  | [] => listPrefixOf pat []
  | c :: rest => listPrefixOf pat (c :: rest) || listInfixOf pat rest

/-- Python `pat in s` on strings; used for the `"application/json" in
content_type` test at auth.py line 141. -/
def strContainsSub (s pat : String) : Bool :=
  listInfixOf pat.toList s.toList

/-- The ASCII whitespace characters stripped by Python `str.strip()`
(space, tab, newline, carriage return, vertical tab, form feed; the
additional Unicode space characters Python also strips do not occur in any
input under verification). -/
def isPyWs (c : Char) : Bool :=
  c == ' ' || c == '\t' || c == '\n' || c == '\r' || c == '\x0b' || c == '\x0c'

/-- Python `str.strip()`: remove leading and trailing whitespace. -/
def pyStrip (s : String) : String :=
  String.mk (((s.toList.dropWhile isPyWs).reverse.dropWhile isPyWs).reverse)

/-- UTF-8 encoding of one Unicode scalar value (as byte values). -/
def utf8EncodeScalar (c : Nat) : List Nat :=
  if c < 0x80 then [c]
  else if c < 0x800 then [0xC0 + c / 64, 0x80 + c % 64]
  else if c < 0x10000 then [0xE0 + c / 4096, 0x80 + c / 64 % 64, 0x80 + c % 64]
  else [0xF0 + c / 262144, 0x80 + c / 4096 % 64, 0x80 + c / 64 % 64, 0x80 + c % 64]

/-- Python `s.encode("utf-8")`: the UTF-8 bytes of a string. -/
def utf8Encode (s : String) : List Nat :=
  (s.toList.map (fun ch => utf8EncodeScalar ch.toNat)).flatten

/-- A byte is a UTF-8 continuation byte (`0b10xxxxxx`). -/
def isCont (b : Nat) : Bool := 0x80 ≤ b && b ≤ 0xBF

/-- Strict UTF-8 decoding of a byte list into Unicode scalar values,
rejecting truncated sequences, stray continuation bytes, overlong forms,
surrogates and values above 0x10FFFF — the failures Python's
`bytes.decode("utf-8")` reports as `UnicodeDecodeError`. -/
def utf8DecodeScalars : List Nat → Option (List Nat)
  | [] => some []
  | b :: rest =>
    if b < 0x80 then
      (utf8DecodeScalars rest).map (fun l => b :: l)
    else if 0xC2 ≤ b && b ≤ 0xDF then
      match rest with
      | b2 :: r =>
        if isCont b2 then
          (utf8DecodeScalars r).map (fun l => ((b - 0xC0) * 64 + (b2 - 0x80)) :: l)
        else none
      | [] => none
    else if 0xE0 ≤ b && b ≤ 0xEF then
      match rest with
      | b2 :: b3 :: r =>
        let code := (b - 0xE0) * 4096 + (b2 - 0x80) * 64 + (b3 - 0x80)
        if isCont b2 && isCont b3 && 0x800 ≤ code
            && !(0xD800 ≤ code && code ≤ 0xDFFF) then
          (utf8DecodeScalars r).map (fun l => code :: l)
        else none
      | _ => none
    else if 0xF0 ≤ b && b ≤ 0xF4 then
      match rest with
      | b2 :: b3 :: b4 :: r =>
        let code := (b - 0xF0) * 262144 + (b2 - 0x80) * 4096 + (b3 - 0x80) * 64 + (b4 - 0x80)
        if isCont b2 && isCont b3 && isCont b4 && 0x10000 ≤ code && code ≤ 0x10FFFF then
          (utf8DecodeScalars r).map (fun l => code :: l)
        else none
      | _ => none
    else none

/-- Python `bs.decode("utf-8")`; `none` is a `UnicodeDecodeError`. -/
def utf8Decode? (bs : List Nat) : Option String :=
  (utf8DecodeScalars bs).map (fun l => String.mk (l.map Char.ofNat))

mutual

/-- Python `repr()` of a JSON-derived value.  String repr is rendered with
single quotes and no escape processing, which coincides with Python for
strings free of quotes, backslashes and control characters — the only
strings arising in the verified claims. -/
def Json.pyRepr : Json → String
  | .null => "None"
  | .bool b => if b then "True" else "False"
  | .num n => toString n
  | .str s => "\x27" ++ s ++ "\x27"
  | .arr l => "[" ++ pyReprList l ++ "]"
  | .obj kvs => "\x7b" ++ pyReprObj kvs ++ "\x7d"

/-- Comma-separated reprs of list elements. -/
def pyReprList : List Json → String
  | [] => ""
  | [v] => Json.pyRepr v
  | v :: rest => Json.pyRepr v ++ ", " ++ pyReprList rest

/-- Comma-separated `key: value` reprs of dict entries. -/
def pyReprObj : List (String × Json) → String
  | [] => ""
  | [(k, v)] => "\x27" ++ k ++ "\x27: " ++ Json.pyRepr v
  | (k, v) :: rest => "\x27" ++ k ++ "\x27: " ++ Json.pyRepr v ++ ", " ++ pyReprObj rest

end

/-- Python `str()` of a JSON-derived value, as interpolated by the f-string
at auth.py line 133 and by `str(value)` at auth.py line 50: identity on
strings, `repr` otherwise. -/
def Json.pyStr : Json → String
  | .str s => s
  | v => v.pyRepr

/-- Python `data.get(k)` as executed by `_login` (auth.py lines 127 and
144-148): on a dict, an optional lookup; on any other JSON-derived value
(list, string, number, bool, None) the attribute `get` does not exist and
the read raises `AttributeError`.  Parsed JSON objects have unique keys, so
the association-list lookup of the first matching key is exact. -/
def Json.dictGet : Json → String → Except PyError (Option Json)
  | .obj kvs, k => .ok (List.lookup k kvs)
  | _, _ => .error (.attrError "get")

/-- Default base URL constant `DEFAULT_API_BASE_URL` of config.py. -/
def DEFAULT_API_BASE_URL : String := "https://api.skribble.com/v2"

/-- Default base URL constant `DEFAULT_MANAGEMENT_BASE_URL` of config.py. -/
def DEFAULT_MANAGEMENT_BASE_URL : String := "https://api.skribble.com/management"

/-- Default base URL constant `DEFAULT_API_BASE_EU_URL` of config.py. -/
def DEFAULT_API_BASE_EU_URL : String := "https://api.skribble.de/v2"

/-- Default base URL constant `DEFAULT_MANAGEMENT_BASE_EU_URL` of config.py. -/
def DEFAULT_MANAGEMENT_BASE_EU_URL : String := "https://api.skribble.de/management"

/-- Default TTL constant `DEFAULT_ACCESS_TOKEN_TTL_SECONDS = 20 * 60` of
config.py. -/
def DEFAULT_ACCESS_TOKEN_TTL_SECONDS : Int := 20 * 60

/-- The `SkribbleConfig` dataclass of config.py, with its exact field list
and defaults.  The Python field `redis_key_prefix` is named `redisKeyPfx`
here (its Python name is unusable as a Lean identifier in this
development); config.py declares NO field named `cache_key_prefix`. -/
structure SkribbleConfig where
  api_base_url : String := DEFAULT_API_BASE_URL
  management_base_url : String := DEFAULT_MANAGEMENT_BASE_URL
  timeout : Int := 30
  verify_ssl : Bool := true
  user_agent : String := "skribble-sdk/0.1.4"
  access_token_ttl_seconds : Int := DEFAULT_ACCESS_TOKEN_TTL_SECONDS
  redisKeyPfx : String := "skribble"

/-- The `SkribbleEUConfig` dataclass of config.py: identical to
`SkribbleConfig` except for the two overridden base-URL defaults. -/
def SkribbleEUConfig : SkribbleConfig :=
  { api_base_url := DEFAULT_API_BASE_EU_URL
    management_base_url := DEFAULT_MANAGEMENT_BASE_EU_URL }

/-- The Python attribute read `self._cfg.cache_key_prefix` performed by
`TokenManager._cache_key` at auth.py line 84.  `SkribbleConfig` (config.py)
declares the fields api_base_url, management_base_url, timeout, verify_ssl,
user_agent, access_token_ttl_seconds and redis_key_prefix — no field named
`cache_key_prefix` — so on every `SkribbleConfig` instance this read raises
`AttributeError`. -/
def SkribbleConfig.readCacheKeyPfx (_c : SkribbleConfig) : Except PyError String :=
  .error (.attrError "cache_key_prefix")

/-- An HTTP response as consumed by `TokenManager._login`: the status code,
the `Content-Type` header (`resp.headers.get("Content-Type", "")`, so `""`
when the header is absent), the raw text body `resp.text`, and the result
of parsing the body as JSON — `resp.json()` returns `json?` when it is
`some`, and raises `json.JSONDecodeError` when it is `none`. -/
structure HttpResponse where
  status_code : Int
  content_type : String
  body : String
  json? : Option Json

/-- The message extraction of the non-200 branch (auth.py line 127):
`data.get("message") or data.get("error") or text`, interpolated through
`str()` by the f-string at line 133.  Short-circuit: `data.get("error")` is
only evaluated when the first operand is falsy; on a non-dict `data` the
first `get` raises `AttributeError`, which line 128 does not catch. -/
def nonSuccessMsg (data : Json) (text : String) : Except PyError String := do
  let m1 ← data.dictGet "message"
  if optTruthy m1 then
    pure (Json.pyStr (m1.getD .null))
  else do
    let m2 ← data.dictGet "error"
    if optTruthy m2 then
      pure (Json.pyStr (m2.getD .null))
    else
      pure text

/-- The token-candidate chain of auth.py lines 144-149:
`data.get("access_token") or data.get("token") or data.get("jwt") or
data.get("AUTH_ACCESS_TOKEN")`, with Python short-circuit `or` over
truthiness.  The final value may itself be falsy (`None` or a falsy JSON
value): Python `or` returns the last operand unchanged. -/
def orChainGets (data : Json) : Except PyError (Option Json) := do
  let a ← data.dictGet "access_token"
  if optTruthy a then pure a
  else do
    let b ← data.dictGet "token"
    if optTruthy b then pure b
    else do
      let c ← data.dictGet "jwt"
      if optTruthy c then pure c
      else data.dictGet "AUTH_ACCESS_TOKEN"

/-- Token extraction from a parsed 200 JSON body (auth.py lines 142-155):
the `or`-chain over the four known field names, then the
`if not token: if isinstance(data, str): token = data` fallback, then the
`if not token: raise SkribbleAuthError(...)` check.  Note the fallback is
reachable only when the `or`-chain itself did not raise, which for a
non-dict `data` never happens — `data.get` on a parsed JSON string raises
`AttributeError` first. -/
def extract200Json (data : Json) : Except PyError Json := do
  let tok ← orChainGets data
  let tok2 := if optTruthy tok then tok
    else match data with
      | .str s => some (.str s)
      | _ => tok
  if optTruthy tok2 then
    pure (tok2.getD .null)
  else
    .error (.authError "Login succeeded but no access token found in response JSON.")

/-- `TokenManager._login` (auth.py lines 103-163) as a function of the
transport outcome.  The argument is what the HTTP POST to
`{api_base_url}/access/login` produced: `.error exc` embeds a raised
`requests.RequestException` with description `exc`; `.ok resp` is the
response.  The request construction itself (URL, username/api-key payload,
timeout, verify flags) has no bearing on any claim and is abstracted into
this argument.  Success is the extracted token value (a JSON value; a
string in every non-exotic case). -/
def loginExchange (outcome : Except String HttpResponse) : Except PyError Json :=
  match outcome with
  | .error exc => .error (.authError ("Failed to call Skribble login endpoint: " ++ exc))
  | .ok resp =>
    if resp.status_code ≠ 200 then
      match resp.json? with
      | none =>
        .error (.httpError resp.status_code ("Login failed: " ++ resp.body) none resp.body)
      | some data =>
        match nonSuccessMsg data resp.body with
        | .error e => .error e
        | .ok msg =>
          .error (.httpError resp.status_code ("Login failed: " ++ msg) (some data) resp.body)
    else
      let tokenE : Except PyError Json :=
        if strContainsSub resp.content_type "application/json" then
          match resp.json? with
          | none => .error .jsonDecodeError
          | some data => extract200Json data
        else
          .ok (.str (pyStrip resp.body))
      match tokenE with
      | .error e => .error e
      | .ok t =>
        if t.truthy then .ok t
        else .error (.authError "Login succeeded but access token is empty.")

/-- The value argument of `setex` (auth.py lines 48-50): bytes and
bytearrays pass through unchanged; every other value is normalized via
`str(value).encode("utf-8")`.  Non-byte values reaching `setex` in this
system are token values, modelled as JSON-derived values. -/
inductive PyVal where
  | bytes (bs : List Nat)
  | pyv (v : Json)

/-- The state of `_InMemoryTokenCache` (auth.py lines 25-52): the `_data`
dict mapping a key to `(expiry timestamp, payload bytes)`.  Dicts are
modelled as association lists with unique keys; `time.time()` floats are
modelled as exact rationals.  The mutex only serializes individual
operations and has no observable effect in this sequential model. -/
abbrev InMemoryCache := List (String × (Rat × List Nat))

/-- `_InMemoryTokenCache.get` (auth.py lines 37-46), with the clock sample
`time.time()` passed in as `now`.  Returns the result together with the
possibly-updated state: an entry with `expires_at < now` is popped (lazy
expiry) and `None` is returned; an absent key returns `None` (the stored
tuples are never falsy, so `if not entry` is exactly absence); otherwise
the payload is returned unchanged. -/
def InMemoryCache.get (c : InMemoryCache) (now : Rat) (key : String) :
    Option (List Nat) × InMemoryCache :=
  match List.lookup key c with
  | none => (none, c)
  | some (expires_at, value) =>
    if expires_at < now then (none, c.filter (fun p => p.1 != key))
    else (some value, c)

/-- `_InMemoryTokenCache.setex` (auth.py lines 48-52), with the clock
sample passed in as `now`: normalize the value to bytes and store
`(now + ttl_seconds, payload)` under the key, replacing any prior entry. -/
def InMemoryCache.setex (c : InMemoryCache) (now : Rat) (key : String)
    (ttl_seconds : Int) (value : PyVal) : InMemoryCache :=
  let payload := match value with
    | .bytes bs => bs
    | .pyv v => utf8Encode (Json.pyStr v)
  (key, (now + (ttl_seconds : Rat), payload)) :: c.filter (fun p => p.1 != key)

/-- The construction-time state of a `TokenManager` (auth.py lines 64-80).
The HTTP session is abstracted into the transport outcome passed to each
operation, and the cache into the explicit `InMemoryCache` state (the
in-process fallback, the only cache implementation in the sources). -/
structure TokenManager where
  username : String
  api_key : String
  cfg : SkribbleConfig
  tenant_id : Option String

/-- `TokenManager._cache_key` (auth.py lines 82-87): read
`self._cfg.cache_key_prefix` (which raises `AttributeError` on every
`SkribbleConfig`, see `SkribbleConfig.readCacheKeyPfx`), build
`prefix:token:username`, and append `:tenant` when `self._tenant_id` is
truthy (neither `None` nor the empty string). -/
def TokenManager.cacheKey (m : TokenManager) : Except PyError String :=
  match m.cfg.readCacheKeyPfx with
  | .error e => .error e
  | .ok pfx =>
    let base := pfx ++ ":token:" ++ m.username
    .ok (match m.tenant_id with
      | some t => if t ≠ "" then base ++ ":" ++ t else base
      | none => base)

/-- The cache key as the spec prescribes it (spec sections 4.4 and 6):
`prefix:token:username[:tenant]`, with the prefix taken from the
configuration — whose prefix field in config.py is `redis_key_prefix`
(`redisKeyPfx` here). -/
def specCacheKey (m : TokenManager) : String :=
  let base := m.cfg.redisKeyPfx ++ ":token:" ++ m.username
  match m.tenant_id with
  | some t => if t ≠ "" then base ++ ":" ++ t else base
  | none => base

/-- The outcome of one `get_access_token` call: the returned token or the
raised exception, the final cache state, and how many login network
exchanges were performed. -/
structure GATResult where
  result : Except PyError Json
  cache : InMemoryCache
  networkCalls : Nat

/-- The login-and-store tail of `get_access_token` (auth.py lines 98-101):
`token = self._login()` (one network exchange), then
`self._cache.setex(self._cache_key, self._cfg.access_token_ttl_seconds,
token)` — where the `self._cache_key` property access happens after the
login and raises on every `SkribbleConfig` — then return the token. -/
def TokenManager.loginStore (m : TokenManager) (cache : InMemoryCache) (now : Rat)
    (outcome : Except String HttpResponse) : GATResult :=
  match loginExchange outcome with
  | .error e => ⟨.error e, cache, 1⟩
  | .ok token =>
    match m.cacheKey with
    | .error e => ⟨.error e, cache, 1⟩
    | .ok key =>
      ⟨.ok token, cache.setex now key m.cfg.access_token_ttl_seconds (.pyv token), 1⟩

/-- `TokenManager.get_access_token` (auth.py lines 89-101).  When
`force_refresh` is false, the cached fast path is attempted first:
`self._cache.get(self._cache_key)` — the key property is evaluated before
the cache is consulted — and a truthy (non-`None`, non-empty) cached byte
value is returned decoded as UTF-8 with no network call.  Otherwise the
login-and-store tail runs.  The `_cache_key` property is recomputed on each
access in the source; it is pure, so the second computation inside
`loginStore` yields the same value. -/
def TokenManager.get_access_token (m : TokenManager) (cache : InMemoryCache)
    (now : Rat) (force_refresh : Bool) (outcome : Except String HttpResponse) :
    GATResult :=
  if force_refresh then
    m.loginStore cache now outcome
  else
    match m.cacheKey with
    | .error e => ⟨.error e, cache, 0⟩
    | .ok key =>
      match InMemoryCache.get cache now key with
      | (some bs, cache1) =>
        if !bs.isEmpty then
          match utf8Decode? bs with
          | some s => ⟨.ok (.str s), cache1, 0⟩
          | none => ⟨.error .unicodeDecodeError, cache1, 0⟩
        else
          m.loginStore cache1 now outcome
      | (none, cache1) =>
        m.loginStore cache1 now outcome

/-- The token field names of auth.py lines 144-149 in their fixed priority
order. -/
def tokenFieldNames : List String := ["access_token", "token", "jwt", "AUTH_ACCESS_TOKEN"]

/-- Specification-side selection function (spec section 4.3a): try the
field names in order and select the first whose value in the object is
truthy; nothing when no field qualifies. -/
def firstTruthyField (kvs : List (String × Json)) : List String → Option Json
  | [] => none
  | n :: rest =>
    match List.lookup n kvs with
    | some v => if v.truthy then some v else firstTruthyField kvs rest
    | none => firstTruthyField kvs rest

/-- The value computed by the `or`-chain on a dict body, written as nested
conditionals (proof intermediary). -/
def orChainVal (kvs : List (String × Json)) : Option Json :=
  if optTruthy (List.lookup "access_token" kvs) then List.lookup "access_token" kvs
  else if optTruthy (List.lookup "token" kvs) then List.lookup "token" kvs
  else if optTruthy (List.lookup "jwt" kvs) then List.lookup "jwt" kvs
  else List.lookup "AUTH_ACCESS_TOKEN" kvs

/-- A `TokenManager` built with the default configuration and no tenant. -/
def tmAlice : TokenManager :=
  { username := "alice", api_key := "secret", cfg := {}, tenant_id := none }

/-- A `TokenManager` with tenant identifier `t1`. -/
def tmTenant1 : TokenManager :=
  { username := "alice", api_key := "secret", cfg := {}, tenant_id := some "t1" }

/-- A `TokenManager` identical to `tmTenant1` except for tenant `t2`. -/
def tmTenant2 : TokenManager :=
  { username := "alice", api_key := "secret", cfg := {}, tenant_id := some "t2" }

/-- A cache holding the UTF-8 bytes of `"tok"` under the key the spec
prescribes for `tmAlice`, unexpired at time 1000. -/
def cacheWithTok : InMemoryCache :=
  [("skribble:token:alice", ((2000 : Rat), [116, 111, 107]))]

/-- A cache holding the UTF-8 bytes of `"old"` under the key the spec
prescribes for `tmAlice`, unexpired at time 1000. -/
def cacheWithOld : InMemoryCache :=
  [("skribble:token:alice", ((2000 : Rat), [111, 108, 100]))]

/-- A 200 login response with JSON body `{"access_token": "new"}`. -/
def respNew : HttpResponse :=
  { status_code := 200, content_type := "application/json",
    body := "\x7b\x22access_token\x22: \x22new\x22\x7d",
    json? := some (.obj [("access_token", .str "new")]) }

/-- A 401 login response with JSON body `{"message": "bad credentials"}`. -/
def respUnauthorized : HttpResponse :=
  { status_code := 401, content_type := "application/json",
    body := "\x7b\x22message\x22: \x22bad credentials\x22\x7d",
    json? := some (.obj [("message", .str "bad credentials")]) }

/-- A 200 login response with JSON body `{"access_token": ""}`. -/
def respEmptyToken : HttpResponse :=
  { status_code := 200, content_type := "application/json",
    body := "\x7b\x22access_token\x22: \x22\x22\x7d",
    json? := some (.obj [("access_token", .str "")]) }

theorem orChainGets_obj (kvs : List (String × Json)) :
    orChainGets (.obj kvs) = .ok (orChainVal kvs) := by
  simp only [orChainGets, Json.dictGet, orChainVal, bind, Except.bind, pure, Except.pure]
  split_ifs <;> rfl

theorem firstTruthyField_cons (kvs : List (String × Json)) (n : String) (rest : List String) :
    firstTruthyField kvs (n :: rest) =
      (if optTruthy (List.lookup n kvs) then List.lookup n kvs
       else firstTruthyField kvs rest) := by
  cases h : List.lookup n kvs with
  | none => simp [firstTruthyField, h, optTruthy]
  | some v => cases hv : v.truthy <;> simp [firstTruthyField, h, hv, optTruthy]

theorem firstTruthyField_eq_orChain (kvs : List (String × Json)) :
    firstTruthyField kvs tokenFieldNames =
      (if optTruthy (orChainVal kvs) then orChainVal kvs else none) := by
  simp only [tokenFieldNames]
  rw [firstTruthyField_cons, firstTruthyField_cons, firstTruthyField_cons, firstTruthyField_cons]
  simp only [firstTruthyField, orChainVal]
  by_cases t1 : optTruthy (List.lookup "access_token" kvs) <;>
  by_cases t2 : optTruthy (List.lookup "token" kvs) <;>
  by_cases t3 : optTruthy (List.lookup "jwt" kvs) <;>
  by_cases t4 : optTruthy (List.lookup "AUTH_ACCESS_TOKEN" kvs) <;>
  simp [t1, t2, t3, t4]

theorem firstTruthyField_truthy (kvs : List (String × Json)) (v : Json)
    (h : firstTruthyField kvs tokenFieldNames = some v) : v.truthy = true := by
  rw [firstTruthyField_eq_orChain] at h
  by_cases ht : optTruthy (orChainVal kvs)
  · rw [if_pos ht] at h
    rw [h] at ht
    simpa [optTruthy] using ht
  · rw [if_neg ht] at h
    exact absurd h (by simp)

theorem extract200Json_obj (kvs : List (String × Json)) :
    extract200Json (.obj kvs) =
      (match firstTruthyField kvs tokenFieldNames with
       | some v => .ok v
       | none => .error (.authError "Login succeeded but no access token found in response JSON.")) := by
  rw [firstTruthyField_eq_orChain]
  simp only [extract200Json, bind, Except.bind, orChainGets_obj kvs]
  by_cases ht : optTruthy (orChainVal kvs)
  · cases hv : orChainVal kvs with
    | none => rw [hv] at ht; simp [optTruthy] at ht
    | some v => rw [hv] at ht; simp [ht, hv, pure, Except.pure]
  · simp [ht]

/-- A 200 response with JSON content type whose body parses to an object is
processed by selecting the first truthy token field, the selected value
passing the final emptiness check unchanged; when nothing is selected the
no-token `SkribbleAuthError` is raised. -/
theorem loginExchange_200_json_obj (kvs : List (String × Json)) (body : String) :
    loginExchange (.ok ⟨200, "application/json", body, some (.obj kvs)⟩) =
      (match firstTruthyField kvs tokenFieldNames with
       | some v => .ok v
       | none => .error (.authError "Login succeeded but no access token found in response JSON.")) := by
  have hct : strContainsSub "application/json" "application/json" = true := by decide
  simp only [loginExchange, hct, extract200Json_obj, if_true]
  cases hf : firstTruthyField kvs tokenFieldNames with
  | some v => simp [firstTruthyField_truthy kvs v hf]
  | none => simp

/-- C1: the claim says the cache key computes to `prefix:token:username`
(plus `:tenant`) and that with the default configuration the computation
succeeds.  In the code it never does: `_cache_key` reads
`self._cfg.cache_key_prefix`, an attribute no `SkribbleConfig` has (the
config field is `redis_key_prefix`), so every cache-key computation raises
`AttributeError` — while the key the spec prescribes for the default
configuration would be `skribble:token:alice`. -/
theorem C1_cache_key_computation_raises :
    (∀ m : TokenManager, m.cacheKey = .error (.attrError "cache_key_prefix"))
      ∧ specCacheKey tmAlice = "skribble:token:alice" :=
  ⟨fun _ => rfl, by decide⟩

/-- C2: the claim says a cache hit under the manager's key returns the
cached value decoded, with zero network calls and no cache write.  In the
code the key property raises `AttributeError` before the cache is even
consulted: with the cache pre-populated with the bytes of `"tok"` under the
spec-prescribed key, `get_access_token(force_refresh=False)` raises,
returns no token, performs zero network calls and leaves the cache
unchanged. -/
theorem C2_cache_hit_raises_instead :
    TokenManager.get_access_token tmAlice cacheWithTok 1000 false (.ok respNew) =
      ⟨.error (.attrError "cache_key_prefix"), cacheWithTok, 0⟩ :=
  rfl

/-- C3: the claim says the non-fast path performs exactly one login, stores
the fresh token under the manager's key and returns it.  In the code: with
`force_refresh=True` and a transport yielding 200 `{"access_token": "new"}`,
one login exchange does happen, but the subsequent `self._cache_key`
access raises `AttributeError` — nothing is stored (the pre-populated
`"old"` entry survives) and no token is returned; with `force_refresh=False`
and an empty cache the key raises before the login, so not even one
exchange is performed. -/
theorem C3_refresh_raises_instead :
    TokenManager.get_access_token tmAlice cacheWithOld 1000 true (.ok respNew) =
        ⟨.error (.attrError "cache_key_prefix"), cacheWithOld, 1⟩
      ∧ TokenManager.get_access_token tmAlice [] 1000 false (.ok respNew) =
        ⟨.error (.attrError "cache_key_prefix"), [], 0⟩ :=
  ⟨rfl, rfl⟩

/-- C4: the claim says identical `(prefix, username, tenant)` yield the
same key and differing tenants yield different keys.  In the code no
manager yields a key at all: two managers differing only in tenant both
raise the same `AttributeError`, so no two distinct keys ever exist — while
the spec-prescribed keys for the two tenants would differ. -/
theorem C4_no_distinct_keys_exist :
    tmTenant1.cacheKey = tmTenant2.cacheKey
      ∧ tmTenant1.cacheKey = .error (.attrError "cache_key_prefix")
      ∧ specCacheKey tmTenant1 ≠ specCacheKey tmTenant2 :=
  ⟨rfl, rfl, by decide⟩

/-- C7: the claim says a 200 JSON response whose body parses to a JSON
string uses that string as the token.  In the code the `or`-chain runs
first and `data.get("access_token")` on a Python `str` raises
`AttributeError`, so the `isinstance(data, str)` fallback at auth.py line
152 is unreachable: the JSON-string body `"tok"` raises instead of
yielding `tok`. -/
theorem C7_json_string_body_raises :
    loginExchange (.ok ⟨200, "application/json", "\x22tok\x22", some (.str "tok")⟩) =
      .error (.attrError "get") :=
  rfl

/-- C5 counterexample: the claim says an entry whose expiry instant is at
or before the current time is removed and nothing returned, and that an
entry stored with `setex(key, 0, v)` is absent on the next `get`.  The code
compares with strict `<`: an entry stored with TTL 0 at time 5 and read at
the same clock value 5 is returned, not removed. -/
theorem C5_expiry_boundary_counterexample :
    InMemoryCache.get (InMemoryCache.setex [] 5 "k" 0 (.bytes [7])) 5 "k"
      = (some [7], [("k", (5, [7]))]) := by
  simp [InMemoryCache.get, InMemoryCache.setex]

/-- C5 amended: `get` returns nothing when the key is absent; when the key
is present with an expiry instant strictly before the current time it
removes the entry and returns nothing; otherwise (expiry at or after the
current time) it returns the stored payload; and an entry stored with
`setex(key, 0, v)` is absent on any `get` at a strictly later time. -/
theorem C5_lazy_expiry_amended (c : InMemoryCache) (now : Rat) (k : String) :
    (List.lookup k c = none → InMemoryCache.get c now k = (none, c))
  ∧ (∀ (e : Rat) (bs : List Nat), List.lookup k c = some (e, bs) → e < now →
      InMemoryCache.get c now k = (none, c.filter (fun p => p.1 != k)))
  ∧ (∀ (e : Rat) (bs : List Nat), List.lookup k c = some (e, bs) → ¬ e < now →
      InMemoryCache.get c now k = (some bs, c))
  ∧ (∀ (v : PyVal) (later : Rat), now < later →
      (InMemoryCache.get (InMemoryCache.setex c now k 0 v) later k).1 = none) := by
  refine ⟨?_, ?_, ?_, ?_⟩
  · intro hl; simp [InMemoryCache.get, hl]
  · intro e bs hl hlt; simp [InMemoryCache.get, hl, hlt]
  · intro e bs hl hlt; simp [InMemoryCache.get, hl, hlt]
  · intro v later hlt
    simp [InMemoryCache.get, InMemoryCache.setex, List.lookup, hlt]

/-- C5 witness: a concrete expired entry (expiry 3, read at 5) is evicted
and nothing is returned. -/
theorem C5_lazy_expiry_amended_witness :
    InMemoryCache.get [("k", ((3 : Rat), [7]))] 5 "k" = (none, []) := by
  have h := (C5_lazy_expiry_amended [("k", ((3 : Rat), [7]))] 5 "k").2.1 3 [7] rfl (by norm_num)
  simpa using h

/-- C6: on a 200 JSON response whose body is a JSON object, the token is
selected by trying `access_token`, `token`, `jwt`, `AUTH_ACCESS_TOKEN` in
that fixed priority order (first truthy value wins); in particular a body
with both `token: a` and `access_token: b` yields `b`. -/
theorem C6_extraction_priority :
    (∀ (kvs : List (String × Json)) (body : String),
      loginExchange (.ok ⟨200, "application/json", body, some (.obj kvs)⟩) =
        (match firstTruthyField kvs tokenFieldNames with
         | some v => .ok v
         | none => .error (.authError "Login succeeded but no access token found in response JSON.")))
    ∧ loginExchange (.ok ⟨200, "application/json",
        "\x7b\x22token\x22: \x22a\x22, \x22access_token\x22: \x22b\x22\x7d",
        some (.obj [("token", .str "a"), ("access_token", .str "b")])⟩) = .ok (.str "b") :=
  ⟨loginExchange_200_json_obj, rfl⟩

/-- C8 counterexample: the claim says every non-200 response fails with an
HTTP error carrying status, message and body.  A 401 response whose body
parses to a JSON array raises `AttributeError` instead (the uncaught
`data.get("message")` on a list), not an HTTP error. -/
theorem C8_nonobject_body_counterexample :
    loginExchange (.ok ⟨401, "application/json", "[]", some (.arr [])⟩) =
      .error (.attrError "get") :=
  rfl

/-- C8 amended: for every non-200 response whose body fails to parse as
JSON or parses to a JSON object, login fails with an HTTP error carrying
the status code, the raw body in parsed and textual form, and the message
`Login failed: ` followed by the truthy `message` field if any, else the
truthy `error` field, else the raw response text (a present-but-falsy field
falls through); responses whose body parses to non-object JSON raise
`AttributeError` instead.  The particular 401 `bad credentials` instance is
the witness below. -/
theorem C8_http_error_amended (resp : HttpResponse) (h : resp.status_code ≠ 200) :
    (resp.json? = none →
      loginExchange (.ok resp) =
        .error (.httpError resp.status_code ("Login failed: " ++ resp.body) none resp.body))
  ∧ (∀ (kvs : List (String × Json)) (s : String),
      resp.json? = some (.obj kvs) → List.lookup "message" kvs = some (.str s) → s ≠ "" →
      loginExchange (.ok resp) =
        .error (.httpError resp.status_code ("Login failed: " ++ s) (some (.obj kvs)) resp.body))
  ∧ (∀ (kvs : List (String × Json)) (s : String),
      resp.json? = some (.obj kvs) → optTruthy (List.lookup "message" kvs) = false →
      List.lookup "error" kvs = some (.str s) → s ≠ "" →
      loginExchange (.ok resp) =
        .error (.httpError resp.status_code ("Login failed: " ++ s) (some (.obj kvs)) resp.body))
  ∧ (∀ (kvs : List (String × Json)),
      resp.json? = some (.obj kvs) → optTruthy (List.lookup "message" kvs) = false →
      optTruthy (List.lookup "error" kvs) = false →
      loginExchange (.ok resp) =
        .error (.httpError resp.status_code ("Login failed: " ++ resp.body) (some (.obj kvs)) resp.body)) := by
  refine ⟨?_, ?_, ?_, ?_⟩
  · intro hj
    simp only [loginExchange, if_pos h, hj]
  · intro kvs s hj hm hs
    simp only [loginExchange, if_pos h, hj]
    simp [nonSuccessMsg, Json.dictGet, bind, Except.bind, pure, Except.pure, hm,
      optTruthy, Json.truthy, hs, Json.pyStr]
  · intro kvs s hj hm he hs
    simp only [loginExchange, if_pos h, hj]
    simp only [nonSuccessMsg, Json.dictGet, bind, Except.bind, pure, Except.pure, hm, he]
    simp [optTruthy, Json.truthy, hs, Json.pyStr]
  · intro kvs hj hm he
    simp only [loginExchange, if_pos h, hj]
    simp only [nonSuccessMsg, Json.dictGet, bind, Except.bind, pure, Except.pure, hm, he]
    simp

/-- C8 witness: the 401 response with body `{"message": "bad credentials"}`
produces the HTTP error with status 401, message
`Login failed: bad credentials`, and the body in parsed and textual form. -/
theorem C8_http_error_amended_witness :
    loginExchange (.ok respUnauthorized) =
      .error (.httpError 401 "Login failed: bad credentials"
        (some (.obj [("message", .str "bad credentials")]))
        "\x7b\x22message\x22: \x22bad credentials\x22\x7d") :=
  (C8_http_error_amended respUnauthorized (by decide)).2.1
    [("message", .str "bad credentials")] "bad credentials" rfl rfl (by decide)

/-- C9 counterexample: the claim says every 200 response without an
extractable token fails with an `AuthError`.  A 200 JSON response whose
body parses to the JSON string `""` — no extractable token — raises
`AttributeError` instead (the `or`-chain calls `.get` on a `str`). -/
theorem C9_json_string_empty_counterexample :
    loginExchange (.ok ⟨200, "application/json", "\x22\x22", some (.str "")⟩) =
      .error (.attrError "get") :=
  rfl

/-- C9 amended: a 200 JSON response whose body parses to an object with no
truthy token field fails with the no-recognizable-token `AuthError`; a 200
non-JSON response whose stripped body is empty fails with the empty-token
`AuthError`; in particular `{"access_token": ""}` makes the login exchange
fail with the no-token `AuthError` — and `get_access_token` never succeeds
and never writes the cache (in the current code it fails even earlier, with
the cache-key `AttributeError`, before any network call).  200 JSON
responses with non-object bodies raise decode or attribute errors
instead. -/
theorem C9_auth_error_amended :
    (∀ (kvs : List (String × Json)) (body : String),
      firstTruthyField kvs tokenFieldNames = none →
      loginExchange (.ok ⟨200, "application/json", body, some (.obj kvs)⟩) =
        .error (.authError "Login succeeded but no access token found in response JSON."))
  ∧ (∀ (body : String) (j : Option Json), pyStrip body = "" →
      loginExchange (.ok ⟨200, "text/plain", body, j⟩) =
        .error (.authError "Login succeeded but access token is empty."))
  ∧ loginExchange (.ok respEmptyToken) =
      .error (.authError "Login succeeded but no access token found in response JSON.")
  ∧ TokenManager.get_access_token tmAlice [] 1000 false (.ok respEmptyToken) =
      ⟨.error (.attrError "cache_key_prefix"), [], 0⟩ := by
  refine ⟨?_, ?_, rfl, rfl⟩
  · intro kvs body hf
    rw [loginExchange_200_json_obj, hf]
  · intro body j hb
    have hct : strContainsSub "text/plain" "application/json" = false := by decide
    simp [loginExchange, hct, hb, Json.truthy]

/-- C9 witness: a 200 `text/plain` response whose body is only whitespace
fails with the empty-token `AuthError`. -/
theorem C9_auth_error_amended_witness :
    loginExchange (.ok ⟨200, "text/plain", "  ", none⟩) =
      .error (.authError "Login succeeded but access token is empty.") :=
  (C9_auth_error_amended).2.1 "  " none (by decide)

/-- C10: token extraction selects by truthiness, not key presence: a
present-but-empty `access_token` falls through to a non-empty `token`, and
with `token` falsy as well, to a non-empty `jwt`. -/
theorem C10_falsy_field_falls_through (kvs : List (String × Json)) (body : String) (s : String) :
    (List.lookup "access_token" kvs = some (.str "") →
      List.lookup "token" kvs = some (.str s) → s ≠ "" →
      loginExchange (.ok ⟨200, "application/json", body, some (.obj kvs)⟩) = .ok (.str s))
  ∧ (List.lookup "access_token" kvs = some (.str "") →
      optTruthy (List.lookup "token" kvs) = false →
      List.lookup "jwt" kvs = some (.str s) → s ≠ "" →
      loginExchange (.ok ⟨200, "application/json", body, some (.obj kvs)⟩) = .ok (.str s)) := by
  constructor
  · intro ha htok hs
    rw [loginExchange_200_json_obj, firstTruthyField_eq_orChain]
    simp only [orChainVal, ha, htok]
    simp [optTruthy, Json.truthy, hs]
  · intro ha htok hjwt hs
    rw [loginExchange_200_json_obj, firstTruthyField_eq_orChain]
    simp only [orChainVal, ha, htok, hjwt]
    simp [optTruthy, Json.truthy, hs]

/-- C10 witness: `{"access_token": "", "token": "x"}` extracts `x`. -/
theorem C10_falsy_field_falls_through_witness :
    loginExchange (.ok ⟨200, "application/json",
      "\x7b\x22access_token\x22: \x22\x22, \x22token\x22: \x22x\x22\x7d",
      some (.obj [("access_token", .str ""), ("token", .str "x")])⟩) = .ok (.str "x") :=
  (C10_falsy_field_falls_through [("access_token", .str ""), ("token", .str "x")]
    "\x7b\x22access_token\x22: \x22\x22, \x22token\x22: \x22x\x22\x7d" "x").1 rfl rfl (by decide)

end Skribble
